import Mathlib

/-!
Shallow embedding of the pharmaceutical data processor
(src/data_processor.py and src/vectordb_setup.py).

Python strings are embedded as `List Char` (`PyStr`) so that the string
operations the code performs (`split`, `strip`) are structurally recursive
and evaluate inside the kernel.  Fallible Python code (code that may raise)
is embedded as `Except`-valued functions.  `pandas.DataFrame` values are
embedded as lists of rows; the output frame built by `_parse_results`
carries its column schema explicitly.
-/

namespace PharmProc

/-- Embedding of a Python `str` as a list of characters. -/
abbrev PyStr := List Char

/-- Python `str.split(sep)` for a one-character separator `sep`:
splits on every occurrence, keeping empty fields, and yields `[""]`
on the empty string. -/
def splitChar (sep : Char) : PyStr → List PyStr
  | [] => [[]]
  | c :: rest =>
    match splitChar sep rest with
    | [] => [[c]]
    | cur :: parts => if c = sep then [] :: cur :: parts else (c :: cur) :: parts

/-- The ASCII whitespace characters removed by Python `str.strip()`. -/
def pyIsSpace (c : Char) : Bool :=
  c = ' ' || c = '\t' || c = '\n' || c = '\r' || c = '\x0b' || c = '\x0c'

/-- Python `str.strip()`: remove leading and trailing whitespace. -/
def pyStrip (s : PyStr) : PyStr :=
  ((s.dropWhile pyIsSpace).reverse.dropWhile pyIsSpace).reverse

/-! ## Batcher: `DataProcessor.split_data_into_chunks` (src/data_processor.py:54-57)

The method computes `chunk_amount = math.ceil(len(df) / self.config.chunk_size)`
and returns `np.array_split(df, chunk_amount)`.  `numpy.array_split(a, n)`
raises `ValueError("number sections must be larger than 0.")` when `n = 0`;
otherwise, with `l = len(a)` and `divmod(l, n) = (q, r)`, it cuts `a` into
`r` sections of size `q + 1` followed by `n - r` sections of size `q`. -/

/-- The section sizes `numpy.array_split` uses for an array of length `l`
split into `n` sections: `l % n` sections of `l / n + 1` elements, then
`n - l % n` sections of `l / n` elements. -/
def sectionSizes (l n : Nat) : List Nat :=
  List.replicate (l % n) (l / n + 1) ++ List.replicate (n - l % n) (l / n)

/-- Cut a list into consecutive pieces of the given sizes. -/
def splitSizes : List α → List Nat → List (List α)
  | _, [] => []
  | xs, s :: rest => xs.take s :: splitSizes (xs.drop s) rest

/-- `numpy.array_split(xs, n)`: error for `n = 0`, else the `n` sections. -/
def array_split (xs : List α) (n : Nat) : Except String (List (List α)) :=
  if n = 0 then Except.error "number sections must be larger than 0."
  else Except.ok (splitSizes xs (sectionSizes xs.length n))

/-- `math.ceil(n / c)` on naturals (for `c > 0` this is `(n + c - 1) / c`). -/
def chunk_amount (n c : Nat) : Nat := (n + c - 1) / c

/-- `DataProcessor.split_data_into_chunks` (src/data_processor.py:54-57). -/
def split_data_into_chunks (df : List α) (chunk_size : Nat) :
    Except String (List (List α)) :=
  array_split df (chunk_amount df.length chunk_size)

/-! ## Result parser: `DataProcessor._parse_results` (src/data_processor.py:185-195) -/

/-- The body of the inner loop of `_parse_results`: split one line on commas,
strip each field, keep the field list only when there are exactly 3 fields. -/
def parse_line (line : PyStr) : Option (List PyStr) :=
  let values := (splitChar ',' line).map pyStrip
  if values.length = 3 then some values else none

/-- One response's contribution to `parsed_rows`:
`result.content.strip().split("\n")`, each line filtered by `parse_line`. -/
def parse_content (content : PyStr) : List (List PyStr) :=
  (splitChar '\n' (pyStrip content)).filterMap parse_line

/-- The output `pandas.DataFrame`: rows plus an explicit column schema. -/
structure DataFrame where
  columns : List String
  rows : List (List PyStr)
deriving DecidableEq

/-- `DataProcessor._parse_results` (src/data_processor.py:185-195):
accumulate the surviving lines of every response, in order, into a frame
with columns `['Daily Frequency', 'Dose', 'Duration']`. -/
def parse_results (results : List PyStr) : DataFrame :=
  { columns := ["Daily Frequency", "Dose", "Duration"]
    rows := (results.map parse_content).flatten }

/-! ## Orchestrator: `DataProcessor.process_data` (src/data_processor.py:59-98)

`_process_chunk` (retrieval, prompt construction and the model call) is
abstracted as a fallible function from a chunk to the response content:
`Except.error ()` stands for a raised exception.  The `try/except/continue`
loop keeps exactly the successful results, in batch order. -/

/-- The chunk loop of `process_data`: each chunk is processed inside
`try/except`; a failure is skipped (`continue`), a success is appended. -/
def run_chunks (chunks : List (List α)) (process_chunk : List α → Except Unit PyStr) :
    List PyStr :=
  chunks.filterMap (fun ch => (process_chunk ch).toOption)

/-- `DataProcessor.process_data` after the data is loaded: split into chunks
(`split_data_into_chunks` may raise, and that error propagates), run the
per-chunk loop, and parse the collected results. -/
def process_data (df : List α) (chunk_size : Nat)
    (process_chunk : List α → Except Unit PyStr) : Except String DataFrame :=
  match split_data_into_chunks df chunk_size with
  | Except.error e => Except.error e
  | Except.ok chunks => Except.ok (parse_results (run_chunks chunks process_chunk))

/-! ## Retriever: `DataProcessor._get_reference_examples` (src/data_processor.py:123-146)

The `try` block (the similarity search plus the example formatting) is
abstracted as an `Except`-valued input: `Except.error ()` stands for any
exception raised inside the block. -/

/-- Metadata of one retrieved document, with the numeric fields already
rendered to text as the f-string renders them. -/
structure DocMetadata where
  raw_antibiotic_name : String
  raw_dose_quantity : String
  patient_instructions : String
  clean_frequency : String
  clean_dose : String
  clean_duration : String
deriving DecidableEq

/-- The example string built for one retrieved document inside the loop of
`_get_reference_examples`. -/
def formatExample (m : DocMetadata) : String :=
  "Example Input: Raw Antibiotic: " ++ m.raw_antibiotic_name ++ " | " ++
  "Raw Dose: " ++ m.raw_dose_quantity ++ " | " ++
  "Instructions: " ++ m.patient_instructions ++ "\n" ++
  "Extracted Output: Daily Frequency: " ++ m.clean_frequency ++ ", " ++
  "Dose: " ++ m.clean_dose ++ "mg, " ++
  "Duration: " ++ m.clean_duration ++ " days\n"

/-- `DataProcessor._get_reference_examples`: on success, join the formatted
examples with newlines; on any exception, return the sentinel string. -/
def get_reference_examples (search : Except Unit (List DocMetadata)) : String :=
  match search with
  | Except.error _ => "No reference data available"
  | Except.ok docs => String.intercalate "\n" (docs.map formatExample)

/-! ## Index builder: `build_vector_db` (src/vectordb_setup.py:13-108) -/

/-- The value a numeric label column (`clean_dose`, `clean_frequency`,
`clean_duration`) can hold in a loaded source row:
`missing` — the column is absent, `row.get` returns the default;
`naValue` — a pandas NA value (`None`, a float NaN, or a cell `read_excel`
converted from its default NA strings), detected by `pd.isna`;
`num q` — a finite numeric value, which `float(...)` returns unchanged;
`nanText` — a value outside pandas' NA set that `float(...)` parses to NaN
(for example the cell text `NAN`, or `nan` padded with spaces);
`infText neg` — a value `float(...)` parses to an infinity;
`nonNumeric` — a value on which `float(...)` raises. -/
inductive LabelValue where
  | missing
  | naValue
  | num (q : ℚ)
  | nanText
  | infText (neg : Bool)
  | nonNumeric
deriving DecidableEq

/-- A Python `float` as persisted in the metadata: finite, NaN or infinite. -/
inductive PyFloat where
  | finite (q : ℚ)
  | nan
  | inf (neg : Bool)
deriving DecidableEq

/-- The per-field coercion performed in `build_vector_db` (src/vectordb_setup.py:53-74):
`row.get(col, 0)` turns a missing column into `0`, the `pd.isna` check turns
a pandas NA value into `0`, and then `float(...)` runs: it raises on a
non-numeric value, and it succeeds — producing a NaN or an infinity that the
NA check never sees — on a NaN- or inf-parsing text. -/
def coerceLabel : LabelValue → Except Unit PyFloat
  | LabelValue.missing => Except.ok (PyFloat.finite 0)
  | LabelValue.naValue => Except.ok (PyFloat.finite 0)
  | LabelValue.num q => Except.ok (PyFloat.finite q)
  | LabelValue.nanText => Except.ok PyFloat.nan
  | LabelValue.infText neg => Except.ok (PyFloat.inf neg)
  | LabelValue.nonNumeric => Except.error ()

/-- How a label value prints inside the `content` f-string, where the raw
value (default `''` for a missing column) is interpolated. -/
def renderLabel : LabelValue → String
  | LabelValue.missing => ""
  | LabelValue.naValue => "nan"
  | LabelValue.num q => toString q
  | LabelValue.nanText => "NAN"
  | LabelValue.infText neg => if neg then "-inf" else "inf"
  | LabelValue.nonNumeric => "<non-numeric>"

/-- One row of the reference Excel sheet, with the three numeric label
columns as `LabelValue` and the text columns already via `str(...)`. -/
structure RefRow where
  raw_antibiotic_name : String
  raw_dose_quantity : String
  patient_instructions : String
  clean_antibiotic_name : String
  clean_dose : LabelValue
  clean_unit_of_measure : String
  clean_frequency : LabelValue
  clean_duration : LabelValue
deriving DecidableEq

/-- The searchable `content` string of `build_vector_db` (src/vectordb_setup.py:42-49). -/
def rowContent (r : RefRow) : String :=
  "Raw Antibiotic: " ++ r.raw_antibiotic_name ++ " | " ++
  "Raw Dose: " ++ r.raw_dose_quantity ++ " | " ++
  "Patient Instructions: " ++ r.patient_instructions ++ " | " ++
  "Clean Antibiotic: " ++ r.clean_antibiotic_name ++ " | " ++
  "Clean Dose: " ++ renderLabel r.clean_dose ++ " | " ++
  "Unit: " ++ r.clean_unit_of_measure ++ " | " ++
  "Frequency: " ++ renderLabel r.clean_frequency ++ " | " ++
  "Duration: " ++ renderLabel r.clean_duration

/-- One persisted `Document`: the page content plus the metadata dict
(src/vectordb_setup.py:65-75), in source order: the `row_id` carrying the
DataFrame index of the row, the text fields, and the three numeric fields
that went through `float(...)`. -/
structure RefRecord where
  page_content : String
  row_id : Nat
  raw_antibiotic_name : String
  raw_dose_quantity : String
  patient_instructions : String
  clean_antibiotic_name : String
  clean_dose : PyFloat
  clean_unit_of_measure : String
  clean_frequency : PyFloat
  clean_duration : PyFloat
deriving DecidableEq

/-- The `try` body of the row loop of `build_vector_db` (src/vectordb_setup.py:40-78)
for the row at DataFrame index `idx` (`for idx, row in ref_df.iterrows()`):
build the content string and the metadata, whose `row_id` is `idx`.  The
only fallible steps are the three `float(...)` coercions, evaluated in
source order (dose, then frequency, then duration); any raise aborts this
row only. -/
def processRow (idx : Nat) (r : RefRow) : Except Unit RefRecord :=
  match coerceLabel r.clean_dose with
  | Except.error e => Except.error e
  | Except.ok d =>
    match coerceLabel r.clean_frequency with
    | Except.error e => Except.error e
    | Except.ok f =>
      match coerceLabel r.clean_duration with
      | Except.error e => Except.error e
      | Except.ok du =>
        Except.ok
          { page_content := rowContent r
            row_id := idx
            raw_antibiotic_name := r.raw_antibiotic_name
            raw_dose_quantity := r.raw_dose_quantity
            patient_instructions := r.patient_instructions
            clean_antibiotic_name := r.clean_antibiotic_name
            clean_dose := d
            clean_unit_of_measure := r.clean_unit_of_measure
            clean_frequency := f
            clean_duration := du }

/-- Filesystem effects of `build_vector_db` on the persist directory. -/
inductive FsEvent where
  | removeTree
  | writeIndex (records : List RefRecord)
deriving DecidableEq

/-- The persistence step (src/vectordb_setup.py:93-103): if the persist
directory exists (`prior` is `some`), `shutil.rmtree` removes it, and then
`Chroma.from_documents` writes the new index. -/
def persistEvents (prior : Option (List RefRecord)) (docs : List RefRecord) :
    List FsEvent :=
  (if prior.isSome then [FsEvent.removeTree] else []) ++ [FsEvent.writeIndex docs]

/-- The document list accumulated by the row loop of `build_vector_db`:
every row is processed at its DataFrame index (`read_excel` yields the
range index 0, 1, ...), and a row that raises is skipped
(`except/continue`). -/
def buildDocuments (rows : List RefRow) : List RefRecord :=
  (List.enumFrom 0 rows).filterMap (fun p => (processRow p.1 p.2).toOption)

/-- `build_vector_db` (src/vectordb_setup.py:13-108): process every row,
skipping (`except/continue`) the ones that raise; raise `ValueError` when no
valid document was produced; otherwise delete any existing index directory
and write the new one.  Returns the filesystem events and the final index
contents. -/
def build_vector_db (prior : Option (List RefRecord)) (rows : List RefRow) :
    Except String (List FsEvent × List RefRecord) :=
  let documents := buildDocuments rows
  if documents.isEmpty then
    Except.error "No valid documents created. Check your Excel file structure."
  else
    Except.ok (persistEvents prior documents, documents)

end PharmProc

namespace PharmProc

/-! ## Helper lemmas about `numpy.array_split` -/

theorem sectionSizes_length (l n : Nat) (hn : 0 < n) :
    (sectionSizes l n).length = n := by
  have h := Nat.mod_lt l hn
  simp [sectionSizes]
  omega

theorem sectionSizes_sum (l n : Nat) (hn : 0 < n) :
    (sectionSizes l n).sum = l := by
  have h1 := Nat.div_add_mod l n
  have h2 : l % n * (l / n) ≤ n * (l / n) :=
    Nat.mul_le_mul_right _ (Nat.le_of_lt (Nat.mod_lt l hn))
  simp [sectionSizes, List.sum_append, List.sum_replicate, smul_eq_mul,
    Nat.mul_add, Nat.sub_mul]
  omega

theorem sectionSizes_mem (l n s : Nat) (hs : s ∈ sectionSizes l n) :
    s = l / n + 1 ∨ s = l / n := by
  rcases List.mem_append.mp hs with h | h
  · exact Or.inl (List.mem_replicate.mp h).2
  · exact Or.inr (List.mem_replicate.mp h).2

theorem splitSizes_map_length (sizes : List Nat) (xs : List α)
    (h : sizes.sum ≤ xs.length) :
    (splitSizes xs sizes).map List.length = sizes := by
  induction sizes generalizing xs with
  | nil => rfl
  | cons s rest ih =>
    have hs : s ≤ xs.length := by
      have := List.sum_cons (a := s) (l := rest) ▸ h
      omega
    have hrest : rest.sum ≤ (xs.drop s).length := by
      simp [List.length_drop]
      have := List.sum_cons (a := s) (l := rest) ▸ h
      omega
    simp [splitSizes, List.length_take, Nat.min_eq_left hs, ih _ hrest]

theorem splitSizes_flatten (sizes : List Nat) (xs : List α) :
    (splitSizes xs sizes).flatten = xs.take sizes.sum := by
  induction sizes generalizing xs with
  | nil => simp [splitSizes]
  | cons s rest ih =>
    simp [splitSizes, ih, List.sum_cons]
    exact (List.take_add xs s rest.sum).symm

/-- For `K = ceil(N/C)` with `0 < C` we have `N ≤ C * K`. -/
theorem ceil_mul_ge (N C : Nat) (hC : 0 < C) :
    N ≤ C * chunk_amount N C := by
  have hdm := Nat.div_add_mod (N + C - 1) C
  have hm : (N + C - 1) % C < C := Nat.mod_lt _ hC
  simp only [chunk_amount]
  omega

/-- For a nonempty input, `ceil(N/C)` is positive. -/
theorem chunk_amount_pos (N C : Nat) (hC : 0 < C) (hN : 0 < N) :
    0 < chunk_amount N C := by
  have : C ≤ N + C - 1 := by omega
  exact (Nat.one_le_div_iff hC).mpr this

/-- Every section size is at most `C`: sections of size `N / K` because
`N ≤ C * K`, and a section of size `N / K + 1` exists only when `K` does
not divide `N`, in which case `N < C * K`. -/
theorem sectionSizes_le_chunk (N C s : Nat) (hC : 0 < C) (hN : 0 < N)
    (hs : s ∈ sectionSizes N (chunk_amount N C)) : s ≤ C := by
  set K := chunk_amount N C with hK
  have hKpos : 0 < K := chunk_amount_pos N C hC hN
  have hb : N ≤ C * K := ceil_mul_ge N C hC
  have hdiv : N / K ≤ C := by
    rw [Nat.div_le_iff_le_mul_add_pred hKpos]
    calc N ≤ C * K := hb
    _ = K * C := Nat.mul_comm C K
    _ ≤ K * C + (K - 1) := Nat.le_add_right _ _
  rcases sectionSizes_mem N K s hs with h | h
  · rcases List.mem_append.mp hs with hmem | hmem
    · have hmod : N % K ≠ 0 := (List.mem_replicate.mp hmem).1
      have hlt : N / K < C := by
        rcases Nat.lt_or_ge N (C * K) with hlt | hge
        · exact (Nat.div_lt_iff_lt_mul hKpos).mpr hlt
        · have heq : N = C * K := Nat.le_antisymm hb hge
          rw [heq] at hmod
          exact absurd (Nat.mul_mod_left C K) hmod
      omega
    · have : s = N / K := (List.mem_replicate.mp hmem).2
      omega
  · omega

end PharmProc

namespace PharmProc

/-! ## Claim C1 -/

/-- C1 counterexample: a dataset of 25 rows with chunk_size 10 yields batches
of sizes (9, 8, 8), not (10, 10, 5): `numpy.array_split` balances the
sections instead of filling each one to the chunk size. -/
theorem c1_counterexample :
    (split_data_into_chunks (List.range 25) 10).map (fun chs => chs.map List.length)
        = Except.ok [9, 8, 8]
    ∧ [9, 8, 8] ≠ [10, 10, 5] := by
  constructor
  · rfl
  · decide

/-- C1 (amended): for a nonempty dataset of `N` rows and `chunk_size C > 0`,
`split_data_into_chunks` yields exactly `K = ceil(N/C)` batches; every batch
has `N / K` or `N / K + 1` rows, and never more than `C` rows. -/
theorem c1_split_counts {α : Type} (df : List α) (C : Nat)
    (hC : 0 < C) (hdf : df ≠ []) :
    ∃ chs, split_data_into_chunks df C = Except.ok chs
      ∧ chs.length = chunk_amount df.length C
      ∧ (∀ b ∈ chs, b.length = df.length / chunk_amount df.length C
          ∨ b.length = df.length / chunk_amount df.length C + 1)
      ∧ (∀ b ∈ chs, b.length ≤ C) := by
  have hN : 0 < df.length := List.length_pos.mpr hdf
  set K := chunk_amount df.length C with hK
  have hKpos : 0 < K := chunk_amount_pos df.length C hC hN
  have hsum : (sectionSizes df.length K).sum = df.length :=
    sectionSizes_sum df.length K hKpos
  have hmaplen : (splitSizes df (sectionSizes df.length K)).map List.length
      = sectionSizes df.length K :=
    splitSizes_map_length _ _ (le_of_eq hsum)
  refine ⟨splitSizes df (sectionSizes df.length K), ?_, ?_, ?_, ?_⟩
  · simp [split_data_into_chunks, array_split, Nat.pos_iff_ne_zero.mp hKpos]
  · have := congrArg List.length hmaplen
    simpa [sectionSizes_length df.length K hKpos] using this
  · intro b hb
    have : b.length ∈ sectionSizes df.length K := by
      rw [← hmaplen]
      exact List.mem_map_of_mem List.length hb
    rcases sectionSizes_mem df.length K b.length this with h | h
    · exact Or.inr h
    · exact Or.inl h
  · intro b hb
    have : b.length ∈ sectionSizes df.length K := by
      rw [← hmaplen]
      exact List.mem_map_of_mem List.length hb
    exact sectionSizes_le_chunk df.length C b.length hC hN this

/-- Witness for C1 (amended) at a dataset of 25 rows and chunk_size 10. -/
theorem c1_split_counts_witness :
    ∃ chs, split_data_into_chunks (List.range 25) 10 = Except.ok chs
      ∧ chs.length = chunk_amount (List.range 25).length 10
      ∧ (∀ b ∈ chs, b.length = (List.range 25).length / chunk_amount (List.range 25).length 10
          ∨ b.length = (List.range 25).length / chunk_amount (List.range 25).length 10 + 1)
      ∧ (∀ b ∈ chs, b.length ≤ 10) :=
  c1_split_counts (List.range 25) 10 (by decide) (by decide)

/-! ## Claim C4 -/

/-- C4: for a nonempty dataset and `chunk_size C > 0`, concatenating the
batches of `split_data_into_chunks` in order reproduces the dataset exactly. -/
theorem c4_concat_batches {α : Type} (df : List α) (C : Nat)
    (hC : 0 < C) (hdf : df ≠ []) (chs : List (List α))
    (h : split_data_into_chunks df C = Except.ok chs) :
    chs.flatten = df := by
  have hN : 0 < df.length := List.length_pos.mpr hdf
  have hKpos : 0 < chunk_amount df.length C := chunk_amount_pos df.length C hC hN
  have hchs : chs = splitSizes df (sectionSizes df.length (chunk_amount df.length C)) := by
    have := h
    simp [split_data_into_chunks, array_split, Nat.pos_iff_ne_zero.mp hKpos] at this
    exact this.symm
  rw [hchs, splitSizes_flatten,
    sectionSizes_sum df.length (chunk_amount df.length C) hKpos, List.take_length]

/-- Witness for C4 on the dataset `[1, 2, 3, 4, 5]` with chunk_size 2. -/
theorem c4_concat_batches_witness :
    split_data_into_chunks [1, 2, 3, 4, 5] 2 = Except.ok [[1, 2], [3, 4], [5]]
    ∧ [[1, 2], [3, 4], [5]].flatten = [1, 2, 3, 4, 5] :=
  ⟨rfl, c4_concat_batches [1, 2, 3, 4, 5] 2 (by decide) (by decide) [[1, 2], [3, 4], [5]] rfl⟩

/-! ## Claim C10 -/

/-- C10: on an empty dataset, `chunk_amount` is 0, so `numpy.array_split`
raises (`split_data_into_chunks` errors), and since the `try/except` of
`process_data` only wraps the per-chunk work, the error propagates:
`process_data` fails rather than completing with an empty output table. -/
theorem c10_empty_input_raises (C : Nat)
    (process_chunk : List Nat → Except Unit PyStr) (hC : 0 < C) :
    split_data_into_chunks ([] : List Nat) C
        = Except.error "number sections must be larger than 0."
    ∧ process_data ([] : List Nat) C process_chunk
        = Except.error "number sections must be larger than 0." := by
  have h0 : chunk_amount 0 C = 0 := by
    simp [chunk_amount]
    exact Nat.div_eq_of_lt (by omega)
  constructor
  · simp [split_data_into_chunks, array_split, h0]
  · simp [process_data, split_data_into_chunks, array_split, h0]

/-- Witness for C10 at chunk_size 10. -/
theorem c10_empty_input_raises_witness :
    split_data_into_chunks ([] : List Nat) 10
        = Except.error "number sections must be larger than 0."
    ∧ process_data ([] : List Nat) 10 (fun _ => Except.ok [])
        = Except.error "number sections must be larger than 0." :=
  c10_empty_input_raises 10 (fun _ => Except.ok []) (by decide)

end PharmProc

namespace PharmProc

/-! ## Claim C2 -/

/-- C2: a response line is kept if and only if splitting it on commas (and
trimming each field, which does not change the count) yields exactly 3
fields, and then the kept value is exactly the trimmed fields as text; all
other lines are dropped; the parser is a total function (it never raises);
parsing the empty string yields a table with zero rows; the 2-field line
`"a,b"` and the 4-field line `"a,b,c,d"` are both dropped. -/
theorem c2_parser_leniency :
    (∀ line : PyStr,
        parse_line line =
          if (splitChar ',' line).length = 3
          then some ((splitChar ',' line).map pyStrip) else none)
    ∧ parse_content "".toList = []
    ∧ (parse_results ["".toList]).rows = []
    ∧ parse_content "a,b".toList = []
    ∧ parse_content "a,b,c,d".toList = [] := by
  refine ⟨fun line => ?_, rfl, rfl, rfl, rfl⟩
  simp [parse_line]

/-! ## Claim C3 -/

/-- C3: if processing one batch raises (`process_chunk` returns an error),
the exception does not escape the chunk loop: the failed batch contributes
zero results and the loop's output is exactly the successful batches'
results in batch order; moreover, whenever the split succeeded,
`process_data` returns `Except.ok` (no exception propagates to the caller),
with the final table parsed from the successful results only. -/
theorem c3_batch_failure_isolated {α : Type} (pre post : List (List α))
    (c : List α) (process_chunk : List α → Except Unit PyStr)
    (hc : process_chunk c = Except.error ()) :
    run_chunks (pre ++ c :: post) process_chunk
        = run_chunks pre process_chunk ++ run_chunks post process_chunk
    ∧ ∀ (df : List α) (C : Nat) (chunks : List (List α)),
        split_data_into_chunks df C = Except.ok chunks →
        process_data df C process_chunk
          = Except.ok (parse_results (run_chunks chunks process_chunk)) := by
  constructor
  · simp [run_chunks, List.filterMap_append, List.filterMap_cons, hc, Except.toOption]
  · intro df C chunks h
    simp [process_data, h]

/-- Witness for C3: three singleton batches where the middle one fails;
the loop output is the two successful responses, and the run completes. -/
theorem c3_batch_failure_isolated_witness :
    run_chunks ([[1]] ++ [0] :: [[2]])
          (fun ch => if ch = [0] then Except.error () else Except.ok "1,2,3".toList)
        = run_chunks [[1]]
            (fun ch => if ch = [0] then Except.error () else Except.ok "1,2,3".toList)
          ++ run_chunks [[2]]
            (fun ch => if ch = [0] then Except.error () else Except.ok "1,2,3".toList)
    ∧ ∀ (df : List Nat) (C : Nat) (chunks : List (List Nat)),
        split_data_into_chunks df C = Except.ok chunks →
        process_data df C
            (fun ch => if ch = [0] then Except.error () else Except.ok "1,2,3".toList)
          = Except.ok (parse_results (run_chunks chunks
              (fun ch => if ch = [0] then Except.error () else Except.ok "1,2,3".toList))) :=
  c3_batch_failure_isolated [[1]] [[2]] [0]
    (fun ch => if ch = [0] then Except.error () else Except.ok "1,2,3".toList) rfl

/-! ## Claim C9 -/

/-- Every row kept by `parse_line` has exactly 3 fields. -/
theorem parse_line_arity (line : PyStr) (v : List PyStr)
    (h : parse_line line = some v) : v.length = 3 := by
  simp only [parse_line] at h
  split at h
  · rename_i hlen
    cases h
    exact hlen
  · cases h

/-- Every row of the parsed output frame has exactly 3 fields. -/
theorem parse_results_arity (results : List PyStr) (row : List PyStr)
    (h : row ∈ (parse_results results).rows) : row.length = 3 := by
  simp only [parse_results] at h
  rcases List.mem_flatten.mp h with ⟨rows, hrows, hrow⟩
  rcases List.mem_map.mp hrows with ⟨content, _, rfl⟩
  rcases List.mem_filterMap.mp hrow with ⟨line, _, hline⟩
  exact parse_line_arity line row hline

/-- C9 counterexample: the parser does not bound the output by the input
row count.  One input row whose response contains two well-formed lines
yields an output table of 2 rows, which exceeds the 1 input row. -/
theorem c9_counterexample :
    (process_data [(0 : Nat)] 10
          (fun _ => Except.ok "1,2,3\n4,5,6".toList)).map (fun t => t.rows.length)
        = Except.ok 2
    ∧ ¬ (2 ≤ [(0 : Nat)].length) := by
  constructor
  · rfl
  · decide

/-- C9 (amended): for every run that completes, the output table has exactly
the 3 columns `Daily Frequency`, `Dose`, `Duration` in that fixed order and
every row has exactly 3 fields; the row count equals the number of
well-formed (3-field) response lines, which is not bounded by the input row
count. -/
theorem c9_output_schema {α : Type} (df : List α) (C : Nat)
    (process_chunk : List α → Except Unit PyStr) (t : DataFrame)
    (h : process_data df C process_chunk = Except.ok t) :
    t.columns = ["Daily Frequency", "Dose", "Duration"]
    ∧ (∀ row ∈ t.rows, row.length = 3)
    ∧ ∃ chunks, split_data_into_chunks df C = Except.ok chunks
        ∧ t.rows = ((run_chunks chunks process_chunk).map parse_content).flatten := by
  simp only [process_data] at h
  split at h
  · cases h
  · rename_i chunks hchunks
    cases h
    exact ⟨rfl, fun row hrow => parse_results_arity _ row hrow, chunks, hchunks, rfl⟩

/-- Witness for C9 (amended) on a 1-row dataset whose response is `"1,2,3"`. -/
theorem c9_output_schema_witness :
    (parse_results (run_chunks [[(0 : Nat)]] (fun _ => Except.ok "1,2,3".toList))).columns
        = ["Daily Frequency", "Dose", "Duration"]
    ∧ (∀ row ∈ (parse_results (run_chunks [[(0 : Nat)]]
          (fun _ => Except.ok "1,2,3".toList))).rows, row.length = 3)
    ∧ ∃ chunks, split_data_into_chunks [(0 : Nat)] 10 = Except.ok chunks
        ∧ (parse_results (run_chunks [[(0 : Nat)]]
              (fun _ => Except.ok "1,2,3".toList))).rows
          = ((run_chunks chunks (fun _ => Except.ok "1,2,3".toList)).map
              parse_content).flatten :=
  c9_output_schema [(0 : Nat)] 10 (fun _ => Except.ok "1,2,3".toList) _ rfl

end PharmProc

namespace PharmProc

/-! ## Claim C5 -/

/-- C5: if the similarity search or the example formatting raises
(`search = Except.error ()`), `_get_reference_examples` returns the sentinel
string `"No reference data available"` instead of raising; the function is
total, so the pipeline stage never fails. -/
theorem c5_retrieval_sentinel (search : Except Unit (List DocMetadata))
    (h : search = Except.error ()) :
    get_reference_examples search = "No reference data available" := by
  subst h
  rfl

/-- Witness for C5 at a failing search. -/
theorem c5_retrieval_sentinel_witness :
    get_reference_examples (Except.error ()) = "No reference data available" :=
  c5_retrieval_sentinel (Except.error ()) rfl

/-! ## Claim C6 -/

/-- C6: a reference row whose construction raises is skipped and the build
continues with the remaining rows: the rows before it contribute exactly
their records, the bad row contributes zero records, and the rows after it
are still processed — at their original DataFrame indices, so their
persisted `row_id`s keep the gap left by the skipped row.  The build raises
the no-valid-documents error if and only if every row failed (zero valid
records were produced). -/
theorem c6_build_skip_and_continue (prior : Option (List RefRecord))
    (pre post : List RefRow) (bad : RefRow)
    (hbad : processRow pre.length bad = Except.error ()) :
    buildDocuments (pre ++ bad :: post)
        = buildDocuments pre
          ++ (List.enumFrom (pre.length + 1) post).filterMap
              (fun p => (processRow p.1 p.2).toOption)
    ∧ ∀ rows : List RefRow,
        (build_vector_db prior rows
            = Except.error "No valid documents created. Check your Excel file structure."
          ↔ ∀ p ∈ List.enumFrom 0 rows, (processRow p.1 p.2).toOption = none) := by
  constructor
  · simp [buildDocuments, List.enumFrom_append, List.enumFrom_cons,
      List.filterMap_append, List.filterMap_cons, hbad, Except.toOption]
  · intro rows
    constructor
    · intro h
      simp only [build_vector_db, buildDocuments] at h
      split at h
      · rename_i hempty
        rw [List.isEmpty_iff] at hempty
        exact List.filterMap_eq_nil_iff.mp hempty
      · cases h
    · intro hall
      have hnil : (List.enumFrom 0 rows).filterMap
          (fun p => (processRow p.1 p.2).toOption) = [] :=
        List.filterMap_eq_nil_iff.mpr hall
      simp [build_vector_db, buildDocuments, hnil]

/-- A well-formed reference row used in witnesses. -/
def sampleRow : RefRow :=
  { raw_antibiotic_name := "amoxicillin"
    raw_dose_quantity := "500mg"
    patient_instructions := "twice daily"
    clean_antibiotic_name := "amoxicillin"
    clean_dose := LabelValue.num 500
    clean_unit_of_measure := "mg"
    clean_frequency := LabelValue.num 2
    clean_duration := LabelValue.num 7 }

/-- A reference row whose `clean_dose` makes `float(...)` raise. -/
def badRow : RefRow := { sampleRow with clean_dose := LabelValue.nonNumeric }

/-- Witness for C6: in a reference set of 10 rows where the third raises,
the skipped row contributes nothing while the other 9 rows' records are
kept (so the build succeeds with 9 records), and the error-iff-all-failed
characterization holds. -/
theorem c6_build_skip_and_continue_witness :
    (buildDocuments
          (List.replicate 2 sampleRow ++ badRow :: List.replicate 7 sampleRow)
        = buildDocuments (List.replicate 2 sampleRow)
          ++ (List.enumFrom ((List.replicate 2 sampleRow).length + 1)
                (List.replicate 7 sampleRow)).filterMap
              (fun p => (processRow p.1 p.2).toOption)
      ∧ ∀ rows : List RefRow,
          (build_vector_db none rows
              = Except.error "No valid documents created. Check your Excel file structure."
            ↔ ∀ p ∈ List.enumFrom 0 rows, (processRow p.1 p.2).toOption = none))
    ∧ (buildDocuments
          (List.replicate 2 sampleRow ++ badRow :: List.replicate 7 sampleRow)).length = 9 :=
  ⟨c6_build_skip_and_continue none (List.replicate 2 sampleRow)
      (List.replicate 7 sampleRow) badRow rfl, rfl⟩

/-! ## Claim C7 -/

/-- A reference row whose `clean_dose` cell text (for example `NAN`) is not
in pandas' NA set but parses to NaN under `float(...)`. -/
def nanRow : RefRow := { sampleRow with clean_dose := LabelValue.nanText }

/-- The record `nanRow` persists to: its `clean_dose` metadata is NaN. -/
def nanRec : RefRecord :=
  { page_content := rowContent nanRow
    row_id := 0
    raw_antibiotic_name := "amoxicillin"
    raw_dose_quantity := "500mg"
    patient_instructions := "twice daily"
    clean_antibiotic_name := "amoxicillin"
    clean_dose := PyFloat.nan
    clean_unit_of_measure := "mg"
    clean_frequency := PyFloat.finite 2
    clean_duration := PyFloat.finite 7 }

/-- C7 counterexample: a cell text such as `NAN` is outside pandas' NA set,
so the `pd.isna` check does not zero it, and `float(...)` parses it to NaN:
the row becomes a persisted record whose `clean_dose` metadata is NaN — it
was neither coerced to 0 nor kept out of the persisted form. -/
theorem c7_counterexample :
    processRow 0 nanRow = Except.ok nanRec
    ∧ nanRec.clean_dose = PyFloat.nan
    ∧ PyFloat.nan ≠ PyFloat.finite 0 := by
  refine ⟨rfl, rfl, by decide⟩

/-- C7 (amended): in every row that becomes a persisted record, a numeric
label field that was missing from the row, or held a pandas NA value
(caught by `pd.isna`), is coerced to 0; a field `float(...)` rejects keeps
the whole row out of the index; but a field whose text parses to NaN slips
past the NA check and is persisted as NaN, so the persisted metadata is not
guaranteed NaN-free. -/
theorem c7_label_coercion (idx : Nat) (r : RefRow) (rec : RefRecord)
    (h : processRow idx r = Except.ok rec) :
    ((r.clean_dose = LabelValue.missing ∨ r.clean_dose = LabelValue.naValue) →
        rec.clean_dose = PyFloat.finite 0)
    ∧ (r.clean_dose = LabelValue.nanText → rec.clean_dose = PyFloat.nan)
    ∧ ((r.clean_frequency = LabelValue.missing
          ∨ r.clean_frequency = LabelValue.naValue) →
        rec.clean_frequency = PyFloat.finite 0)
    ∧ (r.clean_frequency = LabelValue.nanText → rec.clean_frequency = PyFloat.nan)
    ∧ ((r.clean_duration = LabelValue.missing
          ∨ r.clean_duration = LabelValue.naValue) →
        rec.clean_duration = PyFloat.finite 0)
    ∧ (r.clean_duration = LabelValue.nanText → rec.clean_duration = PyFloat.nan) := by
  simp only [processRow] at h
  split at h
  · cases h
  · rename_i d hd
    split at h
    · cases h
    · rename_i f hf
      split at h
      · cases h
      · rename_i du hdu
        rw [Except.ok.injEq] at h
        subst h
        refine ⟨fun hc => ?_, fun hc => ?_, fun hc => ?_, fun hc => ?_,
          fun hc => ?_, fun hc => ?_⟩
        · rcases hc with hm | hm <;> rw [hm] at hd <;>
            simp [coerceLabel] at hd <;> exact hd.symm
        · rw [hc] at hd
          simp [coerceLabel] at hd
          exact hd.symm
        · rcases hc with hm | hm <;> rw [hm] at hf <;>
            simp [coerceLabel] at hf <;> exact hf.symm
        · rw [hc] at hf
          simp [coerceLabel] at hf
          exact hf.symm
        · rcases hc with hm | hm <;> rw [hm] at hdu <;>
            simp [coerceLabel] at hdu <;> exact hdu.symm
        · rw [hc] at hdu
          simp [coerceLabel] at hdu
          exact hdu.symm

/-- A reference row with a missing `clean_dose`, an NA `clean_frequency`
and a finite numeric `clean_duration`. -/
def coercedRow : RefRow :=
  { sampleRow with
    clean_dose := LabelValue.missing
    clean_frequency := LabelValue.naValue
    clean_duration := LabelValue.num 5 }

/-- The record `coercedRow` persists to. -/
def coercedRec : RefRecord :=
  { page_content := rowContent coercedRow
    row_id := 0
    raw_antibiotic_name := "amoxicillin"
    raw_dose_quantity := "500mg"
    patient_instructions := "twice daily"
    clean_antibiotic_name := "amoxicillin"
    clean_dose := PyFloat.finite 0
    clean_unit_of_measure := "mg"
    clean_frequency := PyFloat.finite 0
    clean_duration := PyFloat.finite 5 }

/-- Witness for C7 (amended): the missing dose and the NA frequency persist
as 0. -/
theorem c7_label_coercion_witness :
    processRow 0 coercedRow = Except.ok coercedRec
    ∧ coercedRec.clean_dose = PyFloat.finite 0
    ∧ coercedRec.clean_frequency = PyFloat.finite 0 :=
  ⟨rfl, (c7_label_coercion 0 coercedRow coercedRec rfl).1 (Or.inl rfl),
    (c7_label_coercion 0 coercedRow coercedRec rfl).2.2.1 (Or.inr rfl)⟩

/-! ## Claim C8 -/

/-- C8: whenever a persisted index already exists (`prior = some old`) and
the build succeeds, the filesystem events are exactly a full delete of the
existing directory followed by the write of the new index; the new index is
exactly the records built from the rows, and the result does not depend on
the prior contents in any way (no incremental update, no merge). -/
theorem c8_fresh_build (old : List RefRecord) (rows : List RefRow)
    (events : List FsEvent) (index : List RefRecord)
    (h : build_vector_db (some old) rows = Except.ok (events, index)) :
    events = [FsEvent.removeTree, FsEvent.writeIndex index]
    ∧ index = buildDocuments rows
    ∧ ∀ old2 : List RefRecord,
        build_vector_db (some old2) rows = build_vector_db (some old) rows := by
  simp only [build_vector_db] at h
  split at h
  · cases h
  · rw [Except.ok.injEq, Prod.mk.injEq] at h
    obtain ⟨he, hi⟩ := h
    subst he
    subst hi
    exact ⟨rfl, rfl, fun old2 => rfl⟩

/-- The record `sampleRow` persists to, at DataFrame index 0. -/
def sampleRec : RefRecord :=
  { page_content := rowContent sampleRow
    row_id := 0
    raw_antibiotic_name := "amoxicillin"
    raw_dose_quantity := "500mg"
    patient_instructions := "twice daily"
    clean_antibiotic_name := "amoxicillin"
    clean_dose := PyFloat.finite 500
    clean_unit_of_measure := "mg"
    clean_frequency := PyFloat.finite 2
    clean_duration := PyFloat.finite 7 }

/-- Witness for C8: rebuilding over an existing index deletes it first and
writes exactly the new records. -/
theorem c8_fresh_build_witness :
    [FsEvent.removeTree, FsEvent.writeIndex [sampleRec]]
        = [FsEvent.removeTree, FsEvent.writeIndex [sampleRec]]
    ∧ [sampleRec] = buildDocuments [sampleRow]
    ∧ ∀ old2 : List RefRecord,
        build_vector_db (some old2) [sampleRow]
          = build_vector_db (some []) [sampleRow] :=
  c8_fresh_build [] [sampleRow]
    [FsEvent.removeTree, FsEvent.writeIndex [sampleRec]] [sampleRec] rfl

end PharmProc
